import Mathlib

/-!
Formal model of the manila-plugin interface layer (requires.py / provides.py).

The relation transport carries strings.  Every envelope string exchanged by
this code is produced by Python json.dumps, which is injective on the syntax
of the value serialized (it preserves the insertion order of dict keys and
uses a fixed layout).  We therefore model a serialized JSON string by its
syntax tree `Json`, where an object keeps its fields as an ordered list:
equality of `Json` trees models equality of the transported strings, while
Python structural equality of the decoded values (dict == is key-order
insensitive) is modelled by `Json.pyEq`, which normalizes field order first.
-/

mutual

inductive Json where
  | jstr : String → Json
  | jnum : Int → Json
  | jbool : Bool → Json
  | jnull : Json
  | jarr : JsonList → Json
  | jobj : JsonFields → Json
deriving DecidableEq

inductive JsonList where
  | nil : JsonList
  | cons : Json → JsonList → JsonList
deriving DecidableEq

inductive JsonFields where
  | nil : JsonFields
  | cons : String → Json → JsonFields → JsonFields
deriving DecidableEq

end

namespace Json

/-- Python dict access `fs[key]` for an object's field list (dicts produced by
the protocol never hold duplicate keys, so the first binding is the binding). -/
def lookupField : JsonFields → String → Option Json
  | JsonFields.nil, _ => none
  | JsonFields.cons k v fs, key => if k = key then some v else lookupField fs key

/-- The keys of an object's field list, in insertion order (Python
dict.keys()). -/
def keysOf : JsonFields → List String
  | JsonFields.nil => []
  | JsonFields.cons k _ fs => k :: keysOf fs

/-- All fields satisfy a boolean predicate (Python all() over dict.items()). -/
def fieldsAll (p : String → Json → Bool) : JsonFields → Bool
  | JsonFields.nil => true
  | JsonFields.cons k v fs => p k v && fieldsAll p fs

/-- Insert one field into a key-sorted field list (helper for `norm`). -/
def insertField (key : String) (v : Json) : JsonFields → JsonFields
  | JsonFields.nil => JsonFields.cons key v JsonFields.nil
  | JsonFields.cons l w fs =>
    match compare key l with
    | Ordering.gt => JsonFields.cons l w (insertField key v fs)
    | _ => JsonFields.cons key v (JsonFields.cons l w fs)

/-- Sort a field list by key (insertion sort; helper for `norm`). -/
def sortFields : JsonFields → JsonFields
  | JsonFields.nil => JsonFields.nil
  | JsonFields.cons k v fs => insertField k v (sortFields fs)

mutual

/-- Normal form of a JSON value: object fields sorted by key, recursively.
Two values decoded from protocol JSON compare equal under Python == exactly
when their normal forms coincide (the dicts involved never hold duplicate
keys, and key order is the only freedom json.dumps leaves). -/
def norm : Json → Json
  | jstr s => jstr s
  | jnum n => jnum n
  | jbool b => jbool b
  | jnull => jnull
  | jarr xs => jarr (normList xs)
  | jobj fs => jobj (sortFields (normFields fs))

def normList : JsonList → JsonList
  | JsonList.nil => JsonList.nil
  | JsonList.cons x xs => JsonList.cons (norm x) (normList xs)

def normFields : JsonFields → JsonFields
  | JsonFields.nil => JsonFields.nil
  | JsonFields.cons k v fs => JsonFields.cons k (norm v) (normFields fs)

end

/-- Python structural equality (==) of two decoded JSON values: dict
comparison ignores key order. -/
def pyEq (a b : Json) : Bool := norm a = norm b

/-- The wire envelope json.dumps(\x7b"data": value\x7d). -/
def envelope (v : Json) : Json := jobj (JsonFields.cons "data" v JsonFields.nil)

/-- json.loads(s)["data"]: unwrap the envelope.  Returns none where Python
would raise (no "data" key / not an object); such strings are never produced
by either end of this interface, which only ever writes `envelope` values. -/
def decodeEnvelopeData : Json → Option Json
  | jobj fs => lookupField fs "data"
  | _ => none

/-- Equality of two string lists viewed as sets (Python set-like comparison
of dict key views: a.keys() == b.keys()). -/
def sameKeySet (a b : List String) : Bool :=
  a.all (fun k => b.contains k) && b.all (fun k => a.contains k)

/-- The content comparison in ManilaPluginRequires.set_authentication_data:
existing_auth.keys() == value.keys() (key views compare as sets) and every
cached value equals (Python ==) the incoming value at the same key. -/
def authDataEqual (existing value : JsonFields) : Bool :=
  sameKeySet (keysOf existing) (keysOf value) &&
    fieldsAll
      (fun k v =>
        match lookupField value k with
        | some w => pyEq v w
        | none => false)
      existing

end Json

/-- Python dict assignment result[key] = v on an association list: overwrite
an existing binding in place, otherwise append at the end. -/
def dictInsert (key : String) (v : Json) : List (String × Json) → List (String × Json)
  | [] => [(key, v)]
  | (k, w) :: fs => if k = key then (k, v) :: fs else (k, w) :: dictInsert key v fs

/-- One conversation as seen from the requires (principal) side: the scope
(None once the remote unit departed), the remote-owned mirror fields _name
and _configuration_data, and the locally owned fields _available (default
False) and _authentication_data, plus the last _authentication_data value
this side wrote to the remote. -/
structure Conversation where
  scope : Option String
  remoteName : Option String
  remoteConfig : Option Json
  localAvailable : Bool
  localAuthData : Option Json
  remoteAuthDataOut : Option Json
deriving DecidableEq

/-- Number of conversations whose scope is still live. -/
def liveCount (cs : List Conversation) : Nat :=
  (cs.filter fun c => c.scope.isSome).length

namespace ManilaPluginRequires

/-- The three reactive states of the requires side, as aggregate flags. -/
structure States where
  connected : Bool
  available : Bool
  changed : Bool
deriving DecidableEq

/-- Requires-side relation state: the conversations plus the aggregate
reactive states. -/
structure RelState where
  convs : List Conversation
  states : States
deriving DecidableEq

/-- Result of the conversation loop in update_status: the three counters and
the conversations with their _available caches updated. -/
structure ScanResult where
  count_available : Nat
  count_changed : Nat
  count_conversations : Nat
  convs : List Conversation
deriving DecidableEq

/-- The for-loop of ManilaPluginRequires.update_status: skip conversations
whose scope is gone; a live conversation is available when both remote _name
and remote _configuration_data are present (is-not-None checks); when that
differs from the cached local _available, persist the new value and count a
change. -/
def scan_conversations : List Conversation → ScanResult
  | [] => ⟨0, 0, 0, []⟩
  | c :: rest =>
    let r := scan_conversations rest
    match c.scope with
    | none => { r with convs := c :: r.convs }
    | some _ =>
      let avail := c.remoteName.isSome && c.remoteConfig.isSome
      let ch := avail != c.localAvailable
      let c' := if ch then { c with localAvailable := avail } else c
      { count_available := r.count_available + (if avail then 1 else 0),
        count_changed := r.count_changed + (if ch then 1 else 0),
        count_conversations := r.count_conversations + 1,
        convs := c' :: r.convs }

/-- ManilaPluginRequires.update_status: run the loop, then set .changed if
any conversation changed, set or remove .available depending on the
available count, and remove .connected and .changed when no live
conversation remains. -/
def update_status (s : RelState) : RelState :=
  let r := scan_conversations s.convs
  let st1 := if r.count_changed ≠ 0 then { s.states with changed := true } else s.states
  let st2 :=
    if r.count_available ≠ 0 then { st1 with available := true }
    else { st1 with available := false }
  let st3 :=
    if r.count_conversations = 0 then { st2 with connected := false, changed := false }
    else st2
  { convs := r.convs, states := st3 }

/-- ManilaPluginRequires.clear_changed: remove the aggregate .changed state
(the swallowed missing-scope error makes it a no-op in that case, so the
state outcome is the same either way). -/
def clear_changed (s : RelState) : RelState :=
  { s with states := { s.states with changed := false } }

/-- The eight fixed keys of the authentication schema. -/
def authSchemaKeys : List String :=
  ["username", "password", "project_domain_id", "project_name",
   "user_domain_id", "auth_uri", "auth_url", "auth_type"]

/-- The soft schema check of set_authentication_data: true when the passed
key set and the fixed key set differ in either direction (Python: either
set difference is non-empty).  Only a warning is logged; the result does not
influence any write. -/
def schemaMismatch (value : JsonFields) : Bool :=
  let passed := Json.keysOf value
  passed.any (fun k => !(authSchemaKeys.contains k)) ||
    authSchemaKeys.any (fun k => !(passed.contains k))

/-- The name filter in set_authentication_data: when a name argument is
given (is not None), only conversations whose remote _name equals it are
targeted. -/
def targetMatch (name : Option String) (c : Conversation) : Bool :=
  match name with
  | none => true
  | some n => c.remoteName = some n

/-- The idempotence test in set_authentication_data: the cached local
_authentication_data exists and its decoded "data" dict equals the incoming
value by full key/value comparison.  (Python would raise on a malformed
cache; caches are only ever written by this very method as envelopes, so the
malformed branches are unreachable and modelled as not-equal.) -/
def authCacheEqual (value : JsonFields) (c : Conversation) : Bool :=
  match c.localAuthData with
  | none => false
  | some cached =>
    match Json.decodeEnvelopeData cached with
    | some (Json.jobj existing) => Json.authDataEqual existing value
    | _ => false

/-- The per-conversation body of the set_authentication_data loop: skip dead
conversations, conversations excluded by the name filter, and conversations
whose cached data already equals the value; otherwise write the envelope to
local and remote storage.  The boolean reports whether the write happened. -/
def set_auth_conv (value : JsonFields) (name : Option String) (c : Conversation) :
    Conversation × Bool :=
  if c.scope.isNone then (c, false)
  else if !(targetMatch name c) then (c, false)
  else if authCacheEqual value c then (c, false)
  else
    ({ c with
        localAuthData := some (Json.envelope (Json.jobj value)),
        remoteAuthDataOut := some (Json.envelope (Json.jobj value)) },
      true)

/-- The loop of set_authentication_data over all conversations, counting the
writes performed. -/
def set_auth_loop (value : JsonFields) (name : Option String) :
    List Conversation → List Conversation × Nat
  | [] => ([], 0)
  | c :: rest =>
    let p := set_auth_conv value name c
    let q := set_auth_loop value name rest
    (p.1 :: q.1, (if p.2 then 1 else 0) + q.2)

/-- Outcome of ManilaPluginRequires.set_authentication_data: the updated
conversations, how many of them were written, and whether the soft schema
check logged a warning. -/
structure SetAuthResult where
  convs : List Conversation
  writes : Nat
  warned : Bool
deriving DecidableEq

/-- ManilaPluginRequires.set_authentication_data: soft-validate the key set
(warning only), then run the per-conversation write loop. -/
def set_authentication_data (value : JsonFields) (name : Option String)
    (cs : List Conversation) : SetAuthResult :=
  let q := set_auth_loop value name cs
  { convs := q.1, writes := q.2, warned := schemaMismatch value }

/-- Python truthiness of an optional string: None and "" are falsy. -/
def truthyStr : Option String → Bool
  | none => false
  | some s => decide (s ≠ "")

/-- ManilaPluginRequires.names: the remote _name of every live conversation
for which both _name and _configuration_data are truthy, in iteration order,
without deduplication.  (An absent envelope is None; a present envelope is a
json.dumps output and hence a non-empty, truthy string, so envelope
truthiness is presence.) -/
def names : List Conversation → List String
  | [] => []
  | c :: rest =>
    if c.scope.isNone then names rest
    else
      match c.remoteName with
      | some n =>
        if n ≠ "" ∧ c.remoteConfig.isSome = true then n :: names rest else names rest
      | none => names rest

/-- The skip test of the get_configuration_data loop: Python
if name and _name != name: continue, i.e. only a truthy (non-empty) name
argument filters, and it skips every conversation whose remote _name
differs from it (including an absent _name). -/
def nameFilterSkip (name : Option String) (c : Conversation) : Bool :=
  match name with
  | none => false
  | some m => decide (m ≠ "") && !(decide (c.remoteName = some m))

/-- The per-conversation body of the get_configuration_data loop: on a live,
unfiltered conversation with truthy _name and a configuration envelope,
store the decoded inner data under the name (Python dict assignment).  The
getD arm models the KeyError branch Python would take on a malformed
envelope; the provider only ever writes `envelope` values. -/
def config_step (name : Option String) (acc : List (String × Json)) (c : Conversation) :
    List (String × Json) :=
  if c.scope.isNone then acc
  else if nameFilterSkip name c then acc
  else
    match c.remoteName, c.remoteConfig with
    | some n, some cfg =>
      if n ≠ "" then dictInsert n ((Json.decodeEnvelopeData cfg).getD Json.jnull) acc
      else acc
    | _, _ => acc

/-- The loop of get_configuration_data, threading the result dict. -/
def config_loop (name : Option String) : List Conversation → List (String × Json) →
    List (String × Json)
  | [], acc => acc
  | c :: rest, acc => config_loop name rest (config_step name acc c)

/-- ManilaPluginRequires.get_configuration_data: amalgamate the decoded
configuration fragments of the (optionally name-filtered) live conversations
into one dict keyed by backend name. -/
def get_configuration_data (name : Option String) (cs : List Conversation) :
    List (String × Json) :=
  config_loop name cs []

end ManilaPluginRequires

namespace ManilaPluginProvides

/-- Provider-side state: the single global-scope conversation.  remoteAuth
mirrors the remote-owned _authentication_data string; localAuth is the
locally cached copy; the remaining fields are this side's own name and
configuration storage, plus the three reactive states. -/
structure PState where
  remoteAuth : Option Json
  localAuth : Option Json
  localName : Option String
  remoteNameOut : Option String
  localConfig : Option Json
  remoteConfigOut : Option Json
  connected : Bool
  available : Bool
  changed : Bool
deriving DecidableEq

/-- ManilaPluginProvides.update_status: if authentication data has arrived,
set .available; then, if there is no cached copy or the cached string
differs from the received string (Python != on the two raw JSON strings),
set .changed and cache the received string. -/
def update_status (s : PState) : PState :=
  match s.remoteAuth with
  | none => s
  | some auth_data =>
    let s1 := { s with available := true }
    if s1.localAuth = none ∨ s1.localAuth ≠ some auth_data then
      { s1 with changed := true, localAuth := some auth_data }
    else s1

/-- ManilaPluginProvides.clear_changed: remove the .changed state (the
swallowed missing-scope error leaves the same state outcome). -/
def clear_changed (s : PState) : PState := { s with changed := false }

/-- ManilaPluginProvides.departed: remove the connected, available and
changed states of the conversation; nothing else is touched. -/
def departed (s : PState) : PState :=
  { s with connected := false, available := false, changed := false }

/-- ManilaPluginProvides.joined: set the connected state and recompute. -/
def joined (s : PState) : PState := update_status { s with connected := true }

/-- The authentication_data property: decoded inner data of the received
envelope, or None when nothing has arrived. -/
def authentication_data (s : PState) : Option Json :=
  match s.remoteAuth with
  | none => none
  | some d => some ((Json.decodeEnvelopeData d).getD Json.jnull)

/-- The configuration_data property getter: decoded inner data of the local
copy, or None when unset.  The getD arm models the KeyError branch Python
would take on a malformed envelope; the setter below only writes
`envelope` values. -/
def configuration_data_get (s : PState) : Option Json :=
  match s.localConfig with
  | none => none
  | some d => some ((Json.decodeEnvelopeData d).getD Json.jnull)

/-- The configuration_data property setter: wrap the data in the envelope
and write it to both local and remote storage. -/
def configuration_data_set (d : Json) (s : PState) : PState :=
  { s with
      localConfig := some (Json.envelope d),
      remoteConfigOut := some (Json.envelope d) }

/-- The name property setter: write the plugin name to both local and remote
storage. -/
def name_set (n : Option String) (s : PState) : PState :=
  { s with localName := n, remoteNameOut := n }

end ManilaPluginProvides

/-- Lookup in the amalgamated result dict (Python result[name] access,
first binding). -/
def lookupKey : List (String × Json) → String → Option Json
  | [], _ => none
  | (k, v) :: fs, key => if k = key then some v else lookupKey fs key

namespace ManilaPluginRequires

/-- A conversation qualifies to contribute under name n: live, remote _name
equal to n, configuration envelope present. -/
def qual (n : String) (c : Conversation) : Bool :=
  c.scope.isSome && decide (c.remoteName = some n) && c.remoteConfig.isSome

/-- Reading of the names property following the spec sentence, adjusted for
Python truthiness: the remote _name of every live conversation whose _name
is truthy (non-empty) and whose configuration envelope is present, in
iteration order, without deduplication. -/
def namesSpecTruthy (cs : List Conversation) : List String :=
  (cs.filter fun c => c.scope.isSome && truthyStr c.remoteName && c.remoteConfig.isSome).filterMap
    (fun c => c.remoteName)

end ManilaPluginRequires

/-- A two-field JSON dict in one key order. -/
def authFieldsA : JsonFields :=
  JsonFields.cons "a" (Json.jstr "x") (JsonFields.cons "b" (Json.jstr "y") JsonFields.nil)

/-- The same dict with the fields in the other order: structurally equal to
`authFieldsA` under Python ==, but serialized by json.dumps to a different
string. -/
def authFieldsB : JsonFields :=
  JsonFields.cons "b" (Json.jstr "y") (JsonFields.cons "a" (Json.jstr "x") JsonFields.nil)

/-- The two dicts as JSON object values. -/
def sampleAuthA : Json := Json.jobj authFieldsA

/-- See `sampleAuthA`. -/
def sampleAuthB : Json := Json.jobj authFieldsB

/-- A live conversation whose remote _name is the empty string and whose
configuration envelope is present. -/
def emptyNameConv : Conversation :=
  ⟨some "unit-0", some "", some (Json.envelope sampleAuthA), false, none, none⟩

/-- A live conversation named "A" carrying configuration `sampleAuthA`. -/
def convA1 : Conversation :=
  ⟨some "unit-1", some "A", some (Json.envelope sampleAuthA), false, none, none⟩

/-- A second live conversation also named "A", carrying `sampleAuthB`. -/
def convA2 : Conversation :=
  ⟨some "unit-2", some "A", some (Json.envelope sampleAuthB), false, none, none⟩

/-- A live conversation named "B" carrying configuration `sampleAuthB`. -/
def convB : Conversation :=
  ⟨some "unit-3", some "B", some (Json.envelope sampleAuthB), false, none, none⟩

/-- A live conversation with name and configuration present but an
_available cache still False: the next consumer recompute counts it as a
transition. -/
def freshConv : Conversation :=
  ⟨some "unit-4", some "A", some (Json.envelope sampleAuthA), false, none, none⟩

/-- A conversation whose scope has gone away (inert). -/
def inertConv : Conversation :=
  ⟨none, some "A", some (Json.envelope sampleAuthA), true, none, none⟩

namespace ManilaPluginRequires

/-- The count of live conversations computed by the update_status loop is
the number of conversations whose scope is still present. -/
theorem scan_count_conversations (cs : List Conversation) :
    (scan_conversations cs).count_conversations = liveCount cs := by
  induction cs with
  | nil => rfl
  | cons c rest ih =>
    cases hsc : c.scope with
    | none =>
      simp only [scan_conversations, hsc, liveCount, List.filter_cons,
        Option.isSome_none, Bool.false_eq_true, if_false]
      simpa [liveCount] using ih
    | some u =>
      simp only [scan_conversations, hsc, liveCount, List.filter_cons,
        Option.isSome_some, if_true, List.length_cons]
      simpa [liveCount] using ih

/-- If every live conversation's availability agrees with its cached
_available value, the update_status loop counts no change. -/
theorem scan_count_changed_zero (cs : List Conversation)
    (h : ∀ c ∈ cs, c.scope.isSome = true →
      (c.remoteName.isSome && c.remoteConfig.isSome) = c.localAvailable) :
    (scan_conversations cs).count_changed = 0 := by
  induction cs with
  | nil => rfl
  | cons c rest ih =>
    have hrest := ih (fun c' hc' => h c' (List.mem_cons_of_mem _ hc'))
    cases hsc : c.scope with
    | none => simpa [scan_conversations, hsc] using hrest
    | some u =>
      have hc := h c (List.mem_cons_self _ _) (by simp [hsc])
      simp [scan_conversations, hsc, hc, hrest]

end ManilaPluginRequires

/-- Claim C1: in the consumer's update_status, when the live-conversation
count is zero the aggregate changed state is never set, and both connected
and changed are absent after the recompute returns. -/
theorem C1_consumer_no_live_clears_connected_and_changed
    (s : ManilaPluginRequires.RelState) (h : liveCount s.convs = 0) :
    (ManilaPluginRequires.update_status s).states.changed = false ∧
      (ManilaPluginRequires.update_status s).states.connected = false := by
  have h0 : (ManilaPluginRequires.scan_conversations s.convs).count_conversations = 0 := by
    rw [ManilaPluginRequires.scan_count_conversations]; exact h
  unfold ManilaPluginRequires.update_status
  simp only [h0, if_true, eq_self_iff_true]
  constructor <;> simp

/-- Witness for C1 at a concrete state: one inert conversation, all states
initially set. -/
theorem C1_witness :
    liveCount [inertConv] = 0 ∧
      (ManilaPluginRequires.update_status ⟨[inertConv], ⟨true, true, true⟩⟩).states.changed =
        false ∧
      (ManilaPluginRequires.update_status ⟨[inertConv], ⟨true, true, true⟩⟩).states.connected =
        false := by
  refine ⟨by decide, ?_⟩
  exact C1_consumer_no_live_clears_connected_and_changed ⟨[inertConv], ⟨true, true, true⟩⟩
    (by decide)

/-- Claim C2: in the provider's update_status, an invocation that sets the
changed state also sets the available state in that same invocation. -/
theorem C2_provider_changed_implies_available (s : ManilaPluginProvides.PState)
    (h1 : s.changed = false)
    (h2 : (ManilaPluginProvides.update_status s).changed = true) :
    (ManilaPluginProvides.update_status s).available = true := by
  unfold ManilaPluginProvides.update_status at h2 ⊢
  cases hra : s.remoteAuth with
  | none => rw [hra] at h2; rw [h1] at h2; exact absurd h2 (by simp)
  | some a =>
    simp only [hra] at h2 ⊢
    split <;> simp

/-- Witness for C2 at a concrete state: fresh provider, envelope just
arrived. -/
theorem C2_witness :
    (ManilaPluginProvides.update_status
        ⟨some (Json.envelope sampleAuthA), none, none, none, none, none, true, false, false⟩).available =
      true :=
  C2_provider_changed_implies_available
    ⟨some (Json.envelope sampleAuthA), none, none, none, none, none, true, false, false⟩
    (by decide) (by decide)

/-- Claim C6: round-trip through the provider's configuration envelope: the
setter wraps the data in the envelope and writes it to local and remote
storage, and the getter decodes the local copy back to a structurally equal
value. -/
theorem C6_configuration_roundtrip (d : Json) (s : ManilaPluginProvides.PState) :
    ManilaPluginProvides.configuration_data_get
        (ManilaPluginProvides.configuration_data_set d s) = some d ∧
      (ManilaPluginProvides.configuration_data_set d s).localConfig =
        some (Json.envelope d) ∧
      (ManilaPluginProvides.configuration_data_set d s).remoteConfigOut =
        some (Json.envelope d) := by
  refine ⟨?_, rfl, rfl⟩
  simp [ManilaPluginProvides.configuration_data_get,
    ManilaPluginProvides.configuration_data_set, Json.envelope,
    Json.decodeEnvelopeData, Json.lookupField]

/-- Claim C3 is false on the code: the provider's change detection compares
the raw JSON envelope strings, not the JSON-decoded contents.  At this
concrete input the two received envelopes decode to structurally equal
dicts (Python ==), yet after caching the first and clearing changed, the
recompute on the second still sets changed. -/
theorem C3_counterexample :
    Json.decodeEnvelopeData (Json.envelope sampleAuthA) = some sampleAuthA ∧
      Json.decodeEnvelopeData (Json.envelope sampleAuthB) = some sampleAuthB ∧
      Json.pyEq sampleAuthA sampleAuthB = true ∧
      Json.envelope sampleAuthA ≠ Json.envelope sampleAuthB ∧
      (ManilaPluginProvides.clear_changed
            (ManilaPluginProvides.update_status
              ⟨some (Json.envelope sampleAuthA), none, none, none, none, none, true, false,
                false⟩)).changed = false ∧
      (ManilaPluginProvides.clear_changed
            (ManilaPluginProvides.update_status
              ⟨some (Json.envelope sampleAuthA), none, none, none, none, none, true, false,
                false⟩)).localAuth = some (Json.envelope sampleAuthA) ∧
      (ManilaPluginProvides.update_status
          { ManilaPluginProvides.clear_changed
              (ManilaPluginProvides.update_status
                ⟨some (Json.envelope sampleAuthA), none, none, none, none, none, true, false,
                  false⟩) with
            remoteAuth := some (Json.envelope sampleAuthB) }).changed = true := by
  decide

/-- Claim C3 (amended): when an authentication envelope is present, the
provider's recompute decides changed by comparing the raw received envelope
string against the locally cached string (string equality, not decoded
structural equality): changed is set exactly when the cached string differs
or no cache exists, and the cache afterwards holds the received string. -/
theorem C3_amended_raw_string_comparison (s : ManilaPluginProvides.PState) (a : Json)
    (ha : s.remoteAuth = some a) (hc : s.changed = false) :
    ((ManilaPluginProvides.update_status s).changed = true ↔ s.localAuth ≠ some a) ∧
      (ManilaPluginProvides.update_status s).localAuth = some a ∧
      (ManilaPluginProvides.update_status s).available = true := by
  by_cases hl : s.localAuth = some a
  · have hcond : ¬(s.localAuth = none ∨ s.localAuth ≠ some a) := by simp [hl]
    simp [ManilaPluginProvides.update_status, ha, hcond, hl, hc]
  · have hcond : s.localAuth = none ∨ s.localAuth ≠ some a := Or.inr hl
    simp [ManilaPluginProvides.update_status, ha, hcond, hl]

/-- Witness for the amended C3 at a concrete state: no cache, envelope just
arrived. -/
theorem C3_amended_witness :
    ((ManilaPluginProvides.update_status
            ⟨some (Json.envelope sampleAuthA), none, none, none, none, none, true, false,
              false⟩).changed = true ↔
        (none : Option Json) ≠ some (Json.envelope sampleAuthA)) ∧
      (ManilaPluginProvides.update_status
          ⟨some (Json.envelope sampleAuthA), none, none, none, none, none, true, false,
            false⟩).localAuth = some (Json.envelope sampleAuthA) ∧
      (ManilaPluginProvides.update_status
          ⟨some (Json.envelope sampleAuthA), none, none, none, none, none, true, false,
            false⟩).available = true :=
  C3_amended_raw_string_comparison
    ⟨some (Json.envelope sampleAuthA), none, none, none, none, none, true, false, false⟩
    (Json.envelope sampleAuthA) rfl rfl

/-- Claim C4: set_authentication_data is idempotent per conversation: on a
live, targeted conversation with no cached authentication data, a first
call writes exactly once, and a second call whose value has the same
key/value mapping writes nothing and leaves the conversation unchanged. -/
theorem C4_idempotent_auth_push (v1 v2 : JsonFields) (f : Option String) (c : Conversation)
    (hs : c.scope.isSome = true) (ht : ManilaPluginRequires.targetMatch f c = true)
    (hfresh : c.localAuthData = none) (heq : Json.authDataEqual v1 v2 = true) :
    (ManilaPluginRequires.set_auth_conv v1 f c).2 = true ∧
      (ManilaPluginRequires.set_auth_conv v2 f
          (ManilaPluginRequires.set_auth_conv v1 f c).1).2 = false ∧
      (ManilaPluginRequires.set_auth_conv v2 f
          (ManilaPluginRequires.set_auth_conv v1 f c).1).1 =
        (ManilaPluginRequires.set_auth_conv v1 f c).1 := by
  have hnone : c.scope.isNone = false := by cases hco : c.scope <;> simp_all
  have h1 : ManilaPluginRequires.set_auth_conv v1 f c =
      ({ c with
          localAuthData := some (Json.envelope (Json.jobj v1)),
          remoteAuthDataOut := some (Json.envelope (Json.jobj v1)) }, true) := by
    simp [ManilaPluginRequires.set_auth_conv, hnone, ht,
      ManilaPluginRequires.authCacheEqual, hfresh]
  rw [h1]
  have ht2 : ManilaPluginRequires.targetMatch f
      { c with
          localAuthData := some (Json.envelope (Json.jobj v1)),
          remoteAuthDataOut := some (Json.envelope (Json.jobj v1)) } = true := by
    cases f <;> simp_all [ManilaPluginRequires.targetMatch]
  simp [ManilaPluginRequires.set_auth_conv, hnone, ht2,
    ManilaPluginRequires.authCacheEqual, Json.decodeEnvelopeData, Json.envelope,
    Json.lookupField, heq]

/-- Witness for C4 at a concrete conversation: fresh cache, the two calls
pass the same mapping in different key orders. -/
theorem C4_witness :
    (ManilaPluginRequires.set_auth_conv authFieldsA none freshConv).2 = true ∧
      (ManilaPluginRequires.set_auth_conv authFieldsB none
          (ManilaPluginRequires.set_auth_conv authFieldsA none freshConv).1).2 = false ∧
      (ManilaPluginRequires.set_auth_conv authFieldsB none
          (ManilaPluginRequires.set_auth_conv authFieldsA none freshConv).1).1 =
        (ManilaPluginRequires.set_auth_conv authFieldsA none freshConv).1 :=
  C4_idempotent_auth_push authFieldsA authFieldsB none freshConv (by decide) (by decide)
    (by decide) (by decide)

/-- Claim C9: schema validation in set_authentication_data is soft: a value
whose key set does not match the eight fixed fields only raises a warning,
and the enveloped JSON is still written to the local and remote storage of a
live, targeted conversation (here one not skipped by the independent
idempotence test). -/
theorem C9_soft_schema_validation (v : JsonFields) (f : Option String) (c : Conversation)
    (hm : ManilaPluginRequires.schemaMismatch v = true) (hs : c.scope.isSome = true)
    (ht : ManilaPluginRequires.targetMatch f c = true)
    (hk : ManilaPluginRequires.authCacheEqual v c = false) :
    (ManilaPluginRequires.set_authentication_data v f [c]).warned = true ∧
      (ManilaPluginRequires.set_authentication_data v f [c]).writes = 1 ∧
      (ManilaPluginRequires.set_authentication_data v f [c]).convs =
        [{ c with
            localAuthData := some (Json.envelope (Json.jobj v)),
            remoteAuthDataOut := some (Json.envelope (Json.jobj v)) }] := by
  have hnone : c.scope.isNone = false := by cases hco : c.scope <;> simp_all
  simp [ManilaPluginRequires.set_authentication_data, ManilaPluginRequires.set_auth_loop,
    ManilaPluginRequires.set_auth_conv, hnone, ht, hk, hm]

/-- Witness for C9 at a concrete conversation: a two-key value far from the
eight-field schema, pushed to a live conversation named "A". -/
theorem C9_witness :
    (ManilaPluginRequires.set_authentication_data authFieldsA (some "A") [freshConv]).warned =
        true ∧
      (ManilaPluginRequires.set_authentication_data authFieldsA (some "A")
            [freshConv]).writes = 1 ∧
      (ManilaPluginRequires.set_authentication_data authFieldsA (some "A")
            [freshConv]).convs =
        [{ freshConv with
            localAuthData := some (Json.envelope (Json.jobj authFieldsA)),
            remoteAuthDataOut := some (Json.envelope (Json.jobj authFieldsA)) }] :=
  C9_soft_schema_validation authFieldsA (some "A") freshConv (by decide) (by decide)
    (by decide) (by decide)

/-- Claim C10: the provider's departed handler removes only the connected,
available and changed states and leaves every data field, in particular the
cached _authentication_data, untouched; after a rejoin that supplies
authentication data identical to the cached string, the next update_status
sets available but not changed. -/
theorem C10_departed_preserves_cache (s : ManilaPluginProvides.PState) (a : Json)
    (hc : s.localAuth = some a) :
    (ManilaPluginProvides.departed s).localAuth = s.localAuth ∧
      (ManilaPluginProvides.departed s).remoteAuth = s.remoteAuth ∧
      (ManilaPluginProvides.departed s).localName = s.localName ∧
      (ManilaPluginProvides.departed s).remoteNameOut = s.remoteNameOut ∧
      (ManilaPluginProvides.departed s).localConfig = s.localConfig ∧
      (ManilaPluginProvides.departed s).remoteConfigOut = s.remoteConfigOut ∧
      (ManilaPluginProvides.departed s).connected = false ∧
      (ManilaPluginProvides.departed s).available = false ∧
      (ManilaPluginProvides.departed s).changed = false ∧
      (ManilaPluginProvides.joined
          { ManilaPluginProvides.departed s with remoteAuth := some a }).available = true ∧
      (ManilaPluginProvides.joined
          { ManilaPluginProvides.departed s with remoteAuth := some a }).changed = false := by
  refine ⟨rfl, rfl, rfl, rfl, rfl, rfl, rfl, rfl, rfl, ?_, ?_⟩ <;>
    simp [ManilaPluginProvides.joined, ManilaPluginProvides.update_status,
      ManilaPluginProvides.departed, hc]

/-- Witness for C10 at a concrete provider state holding a cached envelope,
with all three states set before departure. -/
theorem C10_witness :
    (ManilaPluginProvides.departed
          ⟨none, some (Json.envelope sampleAuthA), some "A", some "A", none, none, true, true,
            true⟩).localAuth = some (Json.envelope sampleAuthA) ∧
      (ManilaPluginProvides.departed
          ⟨none, some (Json.envelope sampleAuthA), some "A", some "A", none, none, true, true,
            true⟩).remoteAuth = none ∧
      (ManilaPluginProvides.departed
          ⟨none, some (Json.envelope sampleAuthA), some "A", some "A", none, none, true, true,
            true⟩).localName = some "A" ∧
      (ManilaPluginProvides.departed
          ⟨none, some (Json.envelope sampleAuthA), some "A", some "A", none, none, true, true,
            true⟩).remoteNameOut = some "A" ∧
      (ManilaPluginProvides.departed
          ⟨none, some (Json.envelope sampleAuthA), some "A", some "A", none, none, true, true,
            true⟩).localConfig = none ∧
      (ManilaPluginProvides.departed
          ⟨none, some (Json.envelope sampleAuthA), some "A", some "A", none, none, true, true,
            true⟩).remoteConfigOut = none ∧
      (ManilaPluginProvides.departed
          ⟨none, some (Json.envelope sampleAuthA), some "A", some "A", none, none, true, true,
            true⟩).connected = false ∧
      (ManilaPluginProvides.departed
          ⟨none, some (Json.envelope sampleAuthA), some "A", some "A", none, none, true, true,
            true⟩).available = false ∧
      (ManilaPluginProvides.departed
          ⟨none, some (Json.envelope sampleAuthA), some "A", some "A", none, none, true, true,
            true⟩).changed = false ∧
      (ManilaPluginProvides.joined
          { ManilaPluginProvides.departed
              ⟨none, some (Json.envelope sampleAuthA), some "A", some "A", none, none, true,
                true, true⟩ with
            remoteAuth := some (Json.envelope sampleAuthA) }).available = true ∧
      (ManilaPluginProvides.joined
          { ManilaPluginProvides.departed
              ⟨none, some (Json.envelope sampleAuthA), some "A", some "A", none, none, true,
                true, true⟩ with
            remoteAuth := some (Json.envelope sampleAuthA) }).changed = false := by
  have h := C10_departed_preserves_cache
    ⟨none, some (Json.envelope sampleAuthA), some "A", some "A", none, none, true, true, true⟩
    (Json.envelope sampleAuthA) rfl
  exact h

/-- Claim C7 is false on the code: the names property uses Python
truthiness, not is-not-None tests, so a live conversation whose remote
_name is present but empty ("" is not None) contributes nothing. -/
theorem C7_counterexample :
    emptyNameConv.scope.isSome = true ∧
      emptyNameConv.remoteName.isSome = true ∧
      emptyNameConv.remoteConfig.isSome = true ∧
      ManilaPluginRequires.names [emptyNameConv] = [] := by
  decide

/-- Claim C7 (amended): the names property returns, in conversation
iteration order and without deduplication, the remote _name of exactly
those live conversations whose remote _name is truthy (present and
non-empty) and whose configuration envelope is present. -/
theorem C7_amended_names_truthy (cs : List Conversation) :
    ManilaPluginRequires.names cs = ManilaPluginRequires.namesSpecTruthy cs := by
  induction cs with
  | nil => rfl
  | cons c rest ih =>
    cases hsc : c.scope with
    | none =>
      simpa [ManilaPluginRequires.names, ManilaPluginRequires.namesSpecTruthy, hsc,
        List.filter_cons] using ih
    | some u =>
      cases hrn : c.remoteName with
      | none =>
        simpa [ManilaPluginRequires.names, ManilaPluginRequires.namesSpecTruthy, hsc, hrn,
          ManilaPluginRequires.truthyStr, List.filter_cons] using ih
      | some n =>
        by_cases hne : n = ""
        · simpa [ManilaPluginRequires.names, ManilaPluginRequires.namesSpecTruthy, hsc, hrn,
            hne, ManilaPluginRequires.truthyStr, List.filter_cons] using ih
        · cases hcfg : c.remoteConfig with
          | none =>
            simpa [ManilaPluginRequires.names, ManilaPluginRequires.namesSpecTruthy, hsc,
              hrn, hne, hcfg, ManilaPluginRequires.truthyStr, List.filter_cons] using ih
          | some cfg =>
            simpa [ManilaPluginRequires.names, ManilaPluginRequires.namesSpecTruthy, hsc,
              hrn, hne, hcfg, ManilaPluginRequires.truthyStr, List.filter_cons] using ih

/-- Claim C8 is false on the code: at this concrete input the first
recompute sets changed because availability transitioned; the second
recompute sees no transition (its loop counts zero changes) and one live
conversation remains, yet changed is still set afterwards — update_status
never removes changed while live conversations remain, that is left to
clear_changed. -/
theorem C8_counterexample :
    (ManilaPluginRequires.update_status ⟨[freshConv], ⟨true, false, false⟩⟩).states.changed =
        true ∧
      liveCount
          (ManilaPluginRequires.update_status ⟨[freshConv], ⟨true, false, false⟩⟩).convs = 1 ∧
      (ManilaPluginRequires.scan_conversations
          (ManilaPluginRequires.update_status
              ⟨[freshConv], ⟨true, false, false⟩⟩).convs).count_changed = 0 ∧
      (ManilaPluginRequires.update_status
          (ManilaPluginRequires.update_status
            ⟨[freshConv], ⟨true, false, false⟩⟩)).states.changed = true := by
  decide

/-- Claim C8 (amended): a recompute in which no availability transition
(consumer) or content change (provider) occurs never sets changed: if
changed is absent when such a recompute starts — e.g. after clear_changed
consumed the previous cycle's flag — it is still absent afterwards.  (The
flag itself persists across recomputes until cleared or until the last
conversation departs.) -/
theorem C8_amended_no_transition_keeps_changed_clear
    (s : ManilaPluginRequires.RelState) (p : ManilaPluginProvides.PState)
    (hnc : ∀ c ∈ s.convs, c.scope.isSome = true →
      (c.remoteName.isSome && c.remoteConfig.isSome) = c.localAvailable)
    (hcs : s.states.changed = false)
    (hpc : p.changed = false)
    (hpa : p.remoteAuth = none ∨ p.localAuth = p.remoteAuth) :
    (ManilaPluginRequires.update_status s).states.changed = false ∧
      (ManilaPluginProvides.update_status p).changed = false := by
  constructor
  · have h0 : (ManilaPluginRequires.scan_conversations s.convs).count_changed = 0 :=
      ManilaPluginRequires.scan_count_changed_zero s.convs hnc
    unfold ManilaPluginRequires.update_status
    simp only [h0, ne_eq, not_true_eq_false, if_false]
    split_ifs <;> simp [hcs]
  · cases hpa with
    | inl h => simp [ManilaPluginProvides.update_status, h, hpc]
    | inr h =>
      cases hra : p.remoteAuth with
      | none => simp [ManilaPluginProvides.update_status, hra, hpc]
      | some a =>
        have hl : p.localAuth = some a := by rw [h, hra]
        have hcond : ¬(p.localAuth = none ∨ p.localAuth ≠ some a) := by simp [hl]
        simp [ManilaPluginProvides.update_status, hra, hcond, hpc]

/-- Witness for the amended C8: a consumer with one live, already-synced
conversation and a provider whose cached string equals the received one. -/
theorem C8_amended_witness :
    (ManilaPluginRequires.update_status
          ⟨[{ freshConv with localAvailable := true }], ⟨true, true, false⟩⟩).states.changed =
        false ∧
      (ManilaPluginProvides.update_status
          ⟨some (Json.envelope sampleAuthA), some (Json.envelope sampleAuthA), none, none,
            none, none, true, true, false⟩).changed = false :=
  C8_amended_no_transition_keeps_changed_clear
    ⟨[{ freshConv with localAvailable := true }], ⟨true, true, false⟩⟩
    ⟨some (Json.envelope sampleAuthA), some (Json.envelope sampleAuthA), none, none, none,
      none, true, true, false⟩
    (by decide) (by decide) (by decide) (Or.inr rfl)

/-- Looking up the key just inserted finds the inserted value. -/
theorem lookupKey_dictInsert_self (k : String) (v : Json) (l : List (String × Json)) :
    lookupKey (dictInsert k v l) k = some v := by
  induction l with
  | nil => simp [dictInsert, lookupKey]
  | cons p rest ih =>
    obtain ⟨k', w⟩ := p
    by_cases hk : k' = k
    · simp [dictInsert, lookupKey, hk]
    · simp [dictInsert, lookupKey, hk, ih]

/-- Inserting under a different key does not affect a lookup. -/
theorem lookupKey_dictInsert_ne (k k' : String) (v : Json) (l : List (String × Json))
    (h : k' ≠ k) : lookupKey (dictInsert k' v l) k = lookupKey l k := by
  induction l with
  | nil => simp [dictInsert, lookupKey, h]
  | cons p rest ih =>
    obtain ⟨k'', w⟩ := p
    by_cases hk : k'' = k'
    · simp [dictInsert, lookupKey, hk, h]
    · simp [dictInsert, lookupKey, hk, ih]

/-- Every pair of an insertion result either carries the inserted key or was
already present. -/
theorem mem_dictInsert (p : String × Json) (k : String) (v : Json)
    (l : List (String × Json)) (h : p ∈ dictInsert k v l) : p.1 = k ∨ p ∈ l := by
  induction l with
  | nil => simp [dictInsert] at h; simp [h]
  | cons q rest ih =>
    obtain ⟨k', w⟩ := q
    by_cases hk : k' = k
    · simp only [dictInsert, hk, if_true] at h
      rcases List.mem_cons.mp h with h1 | h1
      · left; simp [h1]
      · right; exact List.mem_cons_of_mem _ h1
    · simp only [dictInsert, hk, if_false] at h
      rcases List.mem_cons.mp h with h1 | h1
      · right; exact h1 ▸ List.mem_cons_self _ _
      · rcases ih h1 with h2 | h2
        · exact Or.inl h2
        · exact Or.inr (List.mem_cons_of_mem _ h2)

namespace ManilaPluginRequires

/-- A loop step over a conversation that does not qualify under n leaves the
result's binding at n unchanged. -/
theorem config_step_lookup_of_not_qual (f : Option String) (acc : List (String × Json))
    (c : Conversation) (n : String) (h : qual n c = false) :
    lookupKey (config_step f acc c) n = lookupKey acc n := by
  unfold config_step
  cases hsc : c.scope with
  | none => simp
  | some u =>
    simp only [hsc, Option.isNone_some, Bool.false_eq_true, if_false]
    by_cases hskip : nameFilterSkip f c = true
    · simp [hskip]
    · simp only [hskip, if_false]
      cases hrn : c.remoteName with
      | none => rfl
      | some m =>
        cases hrc : c.remoteConfig with
        | none => rfl
        | some cfg =>
          have hmn : m ≠ n := by
            intro hmn
            rw [qual, hsc, hrn, hrc, hmn] at h
            simp at h
          by_cases hme : m = ""
          · simp [hme]
          · simp only [ne_eq, hme, not_false_eq_true, if_true]
            exact lookupKey_dictInsert_ne n m _ acc hmn

/-- If no conversation of the list qualifies under n, the whole loop leaves
the binding at n unchanged. -/
theorem config_loop_lookup_of_no_qual (f : Option String) (n : String) :
    ∀ (cs : List Conversation) (acc : List (String × Json)),
      (∀ c ∈ cs, qual n c = false) →
      lookupKey (config_loop f cs acc) n = lookupKey acc n := by
  intro cs
  induction cs with
  | nil => intro acc _; rfl
  | cons c rest ih =>
    intro acc h
    rw [config_loop, ih (config_step f acc c) (fun c' hc' => h c' (List.mem_cons_of_mem _ hc'))]
    exact config_step_lookup_of_not_qual f acc c n (h c (List.mem_cons_self _ _))

/-- On a live conversation matching the (possibly absent) filter, with a
non-empty name and an envelope, the loop step stores the decoded data under
the name. -/
theorem config_step_qual (f : Option String) (acc : List (String × Json))
    (c : Conversation) (n : String) (d : Json)
    (hlive : c.scope.isSome = true) (hname : c.remoteName = some n) (hne : n ≠ "")
    (hcfg : c.remoteConfig = some (Json.envelope d))
    (hf : f = none ∨ f = some n) :
    config_step f acc c = dictInsert n d acc := by
  have hsc : c.scope.isNone = false := by cases h : c.scope <;> simp_all
  have hskip : nameFilterSkip f c = false := by
    rcases hf with h | h <;> simp [nameFilterSkip, h, hname]
  rw [config_step]
  simp [hsc, hskip, hname, hcfg, hne, Json.decodeEnvelopeData, Json.envelope,
    Json.lookupField]

/-- If the unique-qualifier count is one and the qualifier is c, the loop's
result binds c's name to c's decoded data. -/
theorem config_loop_lookup_unique (f : Option String) (n : String) (d : Json)
    (c : Conversation) :
    ∀ (cs : List Conversation) (acc : List (String × Json)),
      c ∈ cs →
      c.scope.isSome = true → c.remoteName = some n → n ≠ "" →
      c.remoteConfig = some (Json.envelope d) →
      (f = none ∨ f = some n) →
      (cs.filter (qual n)).length = 1 →
      lookupKey (config_loop f cs acc) n = some d := by
  intro cs
  induction cs with
  | nil => intro acc hmem; exact absurd hmem (List.not_mem_nil c)
  | cons hd tl ih =>
    intro acc hmem hlive hname hne hcfg hf huniq
    have hqc : qual n c = true := by simp [qual, hlive, hname, hcfg]
    by_cases hqhd : qual n hd = true
    · have hflt : (tl.filter (qual n)).length = 0 := by
        rw [List.filter_cons_of_pos hqhd, List.length_cons] at huniq
        omega
      have hnotl : ∀ c' ∈ tl, qual n c' = false := by
        intro c' hc'
        by_contra hq'
        have : c' ∈ tl.filter (qual n) :=
          List.mem_filter.mpr ⟨hc', Bool.of_not_eq_false hq'⟩
        rw [List.length_eq_zero] at hflt
        simp [hflt] at this
      rcases List.mem_cons.mp hmem with hceq | hctl
      · subst hceq
        rw [config_loop, config_step_qual f acc c n d hlive hname hne hcfg hf,
          config_loop_lookup_of_no_qual f n tl _ hnotl, lookupKey_dictInsert_self]
      · exact absurd hqc (by simp [hnotl c hctl])
    · rcases List.mem_cons.mp hmem with hceq | hctl
      · subst hceq; exact absurd hqc hqhd
      · have huniq' : (tl.filter (qual n)).length = 1 := by
          rwa [List.filter_cons_of_neg hqhd] at huniq
        rw [config_loop]
        exact ih (config_step f acc hd) hctl hlive hname hne hcfg hf huniq'

/-- A step of the loop under a non-empty filter name only ever inserts that
name. -/
theorem config_step_keys (m : String) (acc : List (String × Json)) (c : Conversation)
    (hm : m ≠ "") (hacc : ∀ q ∈ acc, q.1 = m) :
    ∀ p ∈ config_step (some m) acc c, p.1 = m := by
  intro p hp
  unfold config_step at hp
  cases hsc : c.scope with
  | none => rw [hsc] at hp; exact hacc p hp
  | some u =>
    rw [hsc] at hp
    simp only [Option.isNone_some, Bool.false_eq_true, if_false] at hp
    by_cases hskip : nameFilterSkip (some m) c = true
    · simp only [hskip, if_true] at hp
      exact hacc p hp
    · have hskipf : nameFilterSkip (some m) c = false := by
        simpa using hskip
      simp only [hskipf, Bool.false_eq_true, if_false] at hp
      have hrn : c.remoteName = some m := by
        simp [nameFilterSkip, hm] at hskipf
        exact hskipf
      rw [hrn] at hp
      cases hrc : c.remoteConfig with
      | none => rw [hrc] at hp; exact hacc p hp
      | some cfg =>
        rw [hrc] at hp
        simp only [ne_eq, hm, not_false_eq_true, if_true] at hp
        rcases mem_dictInsert p m _ acc hp with h | h
        · exact h
        · exact hacc p h

/-- The whole loop under a non-empty filter name only produces bindings for
that name. -/
theorem config_loop_keys (m : String) (hm : m ≠ "") :
    ∀ (cs : List Conversation) (acc : List (String × Json)),
      (∀ q ∈ acc, q.1 = m) → ∀ p ∈ config_loop (some m) cs acc, p.1 = m := by
  intro cs
  induction cs with
  | nil => intro acc hacc p hp; exact hacc p hp
  | cons c rest ih =>
    intro acc hacc p hp
    rw [config_loop] at hp
    exact ih (config_step (some m) acc c) (config_step_keys m acc c hm hacc) p hp

end ManilaPluginRequires

/-- Claim C5 is false on the code as universally stated, in two ways.
First, get_configuration_data uses Python truthiness on _name, so a live
conversation whose _name is set to "" and whose envelope is present
contributes nothing.  Second, the result is a dict keyed by name, so of two
live qualifying conversations sharing a name the later one overwrites the
earlier: the result does not map the first conversation's name to the first
conversation's data. -/
theorem C5_counterexample :
    (emptyNameConv.scope.isSome = true ∧
        emptyNameConv.remoteName = some "" ∧
        emptyNameConv.remoteConfig.isSome = true ∧
        ManilaPluginRequires.get_configuration_data none [emptyNameConv] = []) ∧
      (convA1.remoteName = convA2.remoteName ∧
        sampleAuthA ≠ sampleAuthB ∧
        convA1.remoteConfig = some (Json.envelope sampleAuthA) ∧
        ManilaPluginRequires.get_configuration_data none [convA1, convA2] =
          [("A", sampleAuthB)]) := by
  decide

/-- Claim C5 (amended): for every live conversation whose remote _name is a
non-empty string n and whose configuration envelope is present, and which
is the only such conversation for n (on a name collision the later
conversation overwrites the earlier), get_configuration_data — unfiltered,
or filtered by exactly n — maps n to the JSON-decoded inner data of that
conversation's envelope; under a non-empty filter, conversations with a
different (or empty or absent) name contribute nothing: every binding of
the result carries the filter name. -/
theorem C5_amended_configuration_lookup (f : Option String) (cs : List Conversation)
    (c : Conversation) (n : String) (d : Json)
    (hmem : c ∈ cs) (hlive : c.scope.isSome = true) (hname : c.remoteName = some n)
    (hne : n ≠ "") (hcfg : c.remoteConfig = some (Json.envelope d))
    (hf : f = none ∨ f = some n)
    (huniq : (cs.filter (ManilaPluginRequires.qual n)).length = 1) :
    lookupKey (ManilaPluginRequires.get_configuration_data f cs) n = some d ∧
      ∀ m, f = some m →
        ∀ p ∈ ManilaPluginRequires.get_configuration_data f cs, p.1 = m := by
  constructor
  · exact ManilaPluginRequires.config_loop_lookup_unique f n d c cs [] hmem hlive hname hne
      hcfg hf huniq
  · intro m hfm p hp
    have hmn : m = n := by
      rcases hf with h | h
      · rw [h] at hfm; cases hfm
      · rw [h] at hfm; injection hfm with h2; exact h2.symm
    rw [hfm] at hp
    exact ManilaPluginRequires.config_loop_keys m (by rw [hmn]; exact hne) cs [] (by simp)
      p hp

/-- Witness for the amended C5: two live conversations named "A" and "B";
the filtered lookup returns exactly A's fragment. -/
theorem C5_witness :
    lookupKey (ManilaPluginRequires.get_configuration_data (some "A") [convA1, convB]) "A" =
        some sampleAuthA ∧
      ∀ m, (some "A" : Option String) = some m →
        ∀ p ∈ ManilaPluginRequires.get_configuration_data (some "A") [convA1, convB],
          p.1 = m :=
  C5_amended_configuration_lookup (some "A") [convA1, convB] convA1 "A" sampleAuthA
    (by decide) (by decide) (by decide) (by decide) (by decide) (Or.inr rfl) (by decide)
